import Mathlib

/-!
Verification of the bus seat-booking core (`booking/` app).

The data model follows `booking/models.py`, the HTTP-facing behaviour
follows `booking/views.py`.  The `services` module is not part of the
source tree; where a claim depends on it, the corresponding definition is
modelled from the specification and marked `Modelled from the spec` in its
doc comment.

Randomness (Python `secrets.token_hex(k)`) is modelled by passing the `k`
random bytes drawn from the CSPRNG as an explicit argument; each byte is a
`Nat` and only its value modulo 256 matters.  Time is a `Nat` instant
passed explicitly as `now`.
-/

namespace Bus

/-! ## Hexadecimal codes (`booking/models.py`) -/

/-- Uppercase hexadecimal digit for a value `n < 16` (`'0'`-`'9'`,`'A'`-`'F'`). -/
def upHexDigit (n : Nat) : Char :=
  if n < 10 then Char.ofNat (48 + n) else Char.ofNat (55 + n)

/-- Lowercase hexadecimal digit for a value `n < 16` (`'0'`-`'9'`,`'a'`-`'f'`). -/
def lowHexDigit (n : Nat) : Char :=
  if n < 10 then Char.ofNat (48 + n) else Char.ofNat (87 + n)

/-- The two hexadecimal characters of one byte, most significant first. -/
def byteHexUpper (b : Nat) : List Char :=
  [upHexDigit (b / 16 % 16), upHexDigit (b % 16)]

def byteHexLower (b : Nat) : List Char :=
  [lowHexDigit (b / 16 % 16), lowHexDigit (b % 16)]

/-- Model of `secrets.token_hex(k)`: lowercase hex string of the `k` random bytes. -/
def token_hex (bytes : List Nat) : String :=
  String.mk (bytes.flatMap byteHexLower)

/-- Model of `secrets.token_hex(k).upper()`: uppercase hex string of the random bytes. -/
def token_hex_upper (bytes : List Nat) : String :=
  String.mk (bytes.flatMap byteHexUpper)

/-- Model of `Seat.generate_claim_code` (models.py:77-80):
`raw = secrets.token_hex(4).upper(); return f"{raw[:4]}-{raw[4:]}"`.
The four random bytes are the explicit argument. -/
def generate_claim_code (bytes : List Nat) : String :=
  let raw := token_hex_upper bytes
  raw.take 4 ++ "-" ++ raw.drop 4

/-- Model of `Seat.generate_booking_code` (models.py:82-86):
`raw = secrets.token_hex(3).upper(); return f"BK-{raw}"`.
The three random bytes are the explicit argument. -/
def generate_booking_code (bytes : List Nat) : String :=
  let raw := token_hex_upper bytes
  "BK-" ++ raw

/-- A character is an uppercase hexadecimal digit. -/
def isUpHexChar (c : Char) : Bool :=
  (('0' ≤ c && c ≤ '9') || ('A' ≤ c && c ≤ 'F'))

/-- A character is a lowercase hexadecimal digit. -/
def isLowHexChar (c : Char) : Bool :=
  (('0' ≤ c && c ≤ '9') || ('a' ≤ c && c ≤ 'f'))

/-- The spec's claim-code shape: four uppercase hex characters, a hyphen,
four more uppercase hex characters — nine characters in all. -/
def claimCodeFormat (s : String) : Bool :=
  s.length = 9 &&
  (s.toList.take 4).all isUpHexChar &&
  s.toList.get? 4 = some '-' &&
  ((s.toList.drop 5).all isUpHexChar && (s.toList.drop 5).length = 4)

/-- The spec's booking-code shape: `"BK-"` then six uppercase hex characters. -/
def bookingCodeFormat (s : String) : Bool :=
  s.length = 9 &&
  s.toList.take 3 = ['B', 'K', '-'] &&
  ((s.toList.drop 3).all isUpHexChar && (s.toList.drop 3).length = 6)

/-! ## Data model (`booking/models.py`) -/

/-- The seat status enum `Seat.Status` (models.py:40-43). -/
inductive Status
  | AVAILABLE
  | HOLD
  | BOOKED
deriving DecidableEq, Repr

/-- A `Seat` row (models.py:39-72).  `trip_id` is the foreign key to the
trip; nullable columns are `Option`s; timestamps are `Nat` instants. -/
structure Seat where
  trip_id : Int
  code : String
  status : Status
  hold_token : Option String
  hold_until : Option Nat
  customer_name : Option String
  customer_wa : Option String
  claim_code : Option String
  booked_at : Option Nat
  booking_code : Option String
deriving DecidableEq, Repr

/-- The declarative options of `Seat.Meta` (models.py:65-72): the
`unique_together` constraint and the declared indexes, each a list of
field names. -/
structure SeatMetaOptions where
  unique_together : List String
  indexes : List (List String)
deriving DecidableEq, Repr

/-- The options of `Seat.Meta` as declared: `unique_together = ("trip", "code")` plus the
four indexes. -/
def seatMeta : SeatMetaOptions :=
  { unique_together := ["trip", "code"],
    indexes := [["trip", "status"], ["status", "hold_until"],
                ["claim_code"], ["booking_code"]] }

/-- A table satisfies the `unique_together ("trip", "code")` constraint:
no two distinct rows agree on both fields. -/
def uniqueTogetherSatisfied (rows : List Seat) : Prop :=
  rows.Pairwise (fun a b => ¬(a.trip_id = b.trip_id ∧ a.code = b.code))

/-- At most one seat row per `(trip, code)` pair. -/
def atMostOnePerPair (rows : List Seat) : Prop :=
  ∀ t c, (rows.filter (fun s => s.trip_id == t && s.code == c)).length ≤ 1

/-! ## Core services

`booking/services.py` is not in the source tree; the core operations below
are modelled from the specification (§4, §5) and marked as such. -/

/-- Structured result of a core service call: success flag, human-readable
message, per-seat failure details for group operations, presented seat data
for reads, and the booking code on finalization. -/
structure SvcResult where
  ok : Bool
  message : String
  failed : List (String × String) := []
  seat_data : List (String × Status) := []
  booking_code : Option String := none
deriving DecidableEq, Repr

/-- A hold whose deadline has passed at instant `now` (spec §3: "holds past
this instant are logically expired even before the sweeper runs"). -/
def holdExpired (now : Nat) (s : Seat) : Bool :=
  s.status == Status.HOLD && decide (s.hold_until.getD 0 < now)

/-- The row-level conditional update applied on a successful acquire:
status becomes `HOLD`, the token is set, the deadline is `now + ttl`. -/
def applyHold (now ttl : Nat) (tok : String) (s : Seat) : Seat :=
  { s with status := Status.HOLD, hold_token := some tok,
           hold_until := some (now + ttl) }

/-- Modelled from the spec: `services.hold_seat` (the Hold Manager's
`acquire`, spec §4.1) is not under `src/`.  The transition is allowed if
the seat is `AVAILABLE`, or already held by the same token (refresh), or
held by another token whose deadline has passed (lazy reclaim); a live
foreign hold or a booked seat is a conflict, a missing seat is a conflict.
Atomicity of the check-and-set is modelled by the sequential semantics of
this function: racing callers are the two serialization orders. -/
def hold_seat_svc (now ttl : Nat) (trip_id : Int) (seat_code hold_token : String)
    (seats : List Seat) : SvcResult × List Seat :=
  match seats.find? (fun r => r.trip_id == trip_id && r.code == seat_code) with
  | none => ({ ok := false, message := "Kursi tidak ditemukan." }, seats)
  | some s =>
    match s.status with
    | Status.BOOKED => ({ ok := false, message := "Kursi sudah dibooking." }, seats)
    | Status.AVAILABLE =>
        ({ ok := true, message := "Kursi berhasil ditahan." },
         seats.map fun r =>
           if r.trip_id == trip_id && r.code == seat_code then
             applyHold now ttl hold_token r
           else r)
    | Status.HOLD =>
        if s.hold_token == some hold_token || decide (s.hold_until.getD 0 < now) then
          ({ ok := true, message := "Kursi berhasil ditahan." },
           seats.map fun r =>
             if r.trip_id == trip_id && r.code == seat_code then
               applyHold now ttl hold_token r
             else r)
        else ({ ok := false, message := "Kursi sedang ditahan sesi lain." }, seats)

/-- The eligibility check of the Admin Booking Finalizer for one named seat
code: `none` when the seat is currently `HOLD` and not expired, otherwise
the seat code with the reason it failed (spec §4.4: not held, expired,
not found). -/
def finalizeFailure (now : Nat) (trip_id : Int) (seats : List Seat) (c : String) :
    Option (String × String) :=
  match seats.find? (fun r => r.trip_id == trip_id && r.code == c) with
  | none => some (c, "not found")
  | some s =>
    match s.status with
    | Status.HOLD =>
        if s.hold_until.getD 0 < now then some (c, "expired") else none
    | _ => some (c, "not held")

/-- The transition applied to every named seat on successful finalization:
`BOOKED`, stamped with the booking code and `booked_at`, hold fields and
claim code cleared (spec §4.4). -/
def applyBook (now : Nat) (bcode : String) (s : Seat) : Seat :=
  { s with status := Status.BOOKED, booking_code := some bcode,
           booked_at := some now, hold_token := none, hold_until := none,
           claim_code := none }

/-- Modelled from the spec: `services.admin_generate_booking_code_and_book`
(the Admin Booking Finalizer, spec §4.4) is not under `src/`.  Every named
seat must currently be `HOLD` and unexpired; if any seat fails, no seat is
modified and the failures are reported per seat; otherwise one fresh
booking code (from the three CSPRNG bytes) is stamped on the whole group. -/
def admin_generate_booking_code_and_book (now : Nat) (trip_id : Int)
    (codeBytes : List Nat) (seat_codes : List String) (seats : List Seat) :
    SvcResult × List Seat :=
  let failures := seat_codes.filterMap (finalizeFailure now trip_id seats)
  if failures.isEmpty then
    let bcode := generate_booking_code codeBytes
    ({ ok := true, message := "Booking dikonfirmasi.", booking_code := some bcode },
     seats.map fun r =>
       if r.trip_id == trip_id && seat_codes.contains r.code then
         applyBook now bcode r
       else r)
  else
    ({ ok := false, message := "Sebagian kursi tidak valid.", failed := failures },
     seats)

/-- Modelled from the spec: `services.expire_holds` (the Expiry Sweeper,
spec §4.3) is not under `src/`.  Every seat with `status = HOLD` and
`hold_until < now` returns to `AVAILABLE` with `hold_token`, `hold_until`
and `claim_code` cleared; the count of released seats is returned. -/
def expire_holds (now : Nat) (seats : List Seat) : Nat × List Seat :=
  (seats.countP (holdExpired now),
   seats.map fun s =>
     if holdExpired now s then
       { s with status := Status.AVAILABLE, hold_token := none,
                hold_until := none, claim_code := none }
     else s)

/-- A `Trip` row (models.py:6-36), the fields surfaced by the trip list. -/
structure Trip where
  id : Int
  title : String
  bus_type : String
  route_from : String
  route_to : String
  depart_at : Nat
  price : Nat
  capacity_total : Nat
  is_active : Bool
deriving DecidableEq, Repr

/-- Modelled from the spec: `services.list_trips` is not under `src/`;
the trip list presents the active trips (spec §6: "list active trips"). -/
def list_trips (trips : List Trip) : List Trip :=
  trips.filter (fun t => t.is_active)

/-- Modelled from the spec: `services.get_seat_map` is not under `src/`.
The sweep is "invoked opportunistically before any read that presents seat
availability" (spec §4.3), so the sweep runs first and the seat map is read
from the swept state; an unknown trip is a not-found failure. -/
def get_seat_map (now : Nat) (trip_id : Int) (trips : List Trip)
    (seats : List Seat) : SvcResult × List Seat :=
  let swept := (expire_holds now seats).2
  match trips.find? (fun t => t.id == trip_id) with
  | none => ({ ok := false, message := "Trip tidak ditemukan." }, swept)
  | some _ =>
      ({ ok := true, message := "OK",
         seat_data := (swept.filter (fun s => s.trip_id == trip_id)).map
           (fun s => (s.code, s.status)) },
       swept)

/-! ## View layer (`booking/views.py`) -/

/-- A JSON value as far as the views inspect one. -/
inductive JVal
  | jnull
  | jbool (b : Bool)
  | jnum (n : Int)
  | jstr (s : String)
deriving DecidableEq, Repr

/-- Python `str.strip()`: drop whitespace from both ends. -/
def pyStrip (s : String) : String :=
  String.mk (((s.data.dropWhile Char.isWhitespace).reverse.dropWhile
    Char.isWhitespace).reverse)

/-- Python `str.upper()` (over the ASCII range the app uses). -/
def pyUpper (s : String) : String :=
  String.mk (s.data.map Char.toUpper)

/-- Decimal digits to the number they denote. -/
def digitsToNat (l : List Char) : Nat :=
  l.foldl (fun acc c => acc * 10 + (c.toNat - 48)) 0

/-- Python `int(s)` on a string: optional surrounding whitespace, optional
sign, one or more decimal digits; anything else raises (here: `none`). -/
def pyParseInt (s : String) : Option Int :=
  let l := (pyStrip s).data
  let p : Int × List Char :=
    match l with
    | '-' :: rest => (-1, rest)
    | '+' :: rest => (1, rest)
    | _ => (1, l)
  if !p.2.isEmpty && p.2.all Char.isDigit then
    some (p.1 * (digitsToNat p.2 : Int))
  else none

/-- Model of `_to_int` (views.py:51-55) with its default `0`: `int(value)`, any
`TypeError`/`ValueError` giving the default.  `int` of a number is itself,
of a bool is 0/1, of `None` raises. -/
def to_int (v : Option JVal) : Int :=
  match v with
  | some (JVal.jnum n) => n
  | some (JVal.jstr s) => (pyParseInt s).getD 0
  | some (JVal.jbool b) => if b then 1 else 0
  | _ => 0

/-- Python `x or ""` on an optional string field. -/
def py_or_str (v : Option String) : String :=
  match v with
  | some s => s
  | none => ""

/-- The JSON payload of `_ok`/`_err` (views.py:19-30) as far as the claims
inspect it: the `ok` flag, the message and the HTTP status. -/
structure HttpResponse where
  ok : Bool
  message : String
  status : Nat
deriving DecidableEq, Repr

/-- Model of `_err(message, status)` (views.py:26-30). -/
def errResp (message : String) (status : Nat) : HttpResponse :=
  ⟨false, message, status⟩

/-- Model of `_ok(message)` (views.py:19-23). -/
def okResp (message : String) : HttpResponse :=
  ⟨true, message, 200⟩

/-- What `_is_admin_request` reads off an `HttpRequest`: whether
`request.user` is an authenticated staff user, and the raw `X-ADMIN-KEY`
header (`none` when absent). -/
structure AdminRequest where
  user_is_authenticated_staff : Bool
  admin_key_header : Option String
deriving DecidableEq, Repr

/-- Model of `_is_admin_request` (views.py:58-70).  `admin_api_key` models
`getattr(settings, "ADMIN_API_KEY", "")` where `none` stands for an
unset/`None` setting; the `or ""` collapses both `none` and `some ""` to
the empty string. -/
def is_admin_request (admin_api_key : Option String) (req : AdminRequest) : Bool :=
  if req.user_is_authenticated_staff then true
  else
    let expected := admin_api_key.getD ""
    if expected = "" then false
    else (pyStrip (req.admin_key_header.getD "") == expected)

/-- Python truthiness of `request.session.get(key)`: `None` and `""` are
falsy, any other string truthy. -/
def py_truthy_str (v : Option String) : Bool :=
  match v with
  | none => false
  | some s => !(s == "")

/-- Model of `_get_or_create_hold_token` (views.py:33-38).  The session slot
`seat_hold_token` comes in as `session`; the 16 CSPRNG bytes that
`secrets.token_hex(16)` would consume come in as `freshBytes`.  Returns the
token handed to the caller and the session slot after the call. -/
def get_or_create_hold_token (session : Option String) (freshBytes : List Nat) :
    String × Option String :=
  if py_truthy_str session then (session.getD "", session)
  else
    let t := token_hex freshBytes
    (t, some t)

/-- The shape of a fresh hold token: 32 lowercase hexadecimal characters. -/
def hexTokenFormat (s : String) : Bool :=
  s.length = 32 && s.toList.all isLowHexChar

/-- The parsed JSON body of `hold_seat`, restricted to the fields the view
reads: `trip_id` (any JSON value) and `seat_code` (a string when given). -/
structure HoldBody where
  trip_id : Option JVal
  seat_code : Option String
deriving DecidableEq, Repr

/-- The view `hold_seat` (views.py:113-130): validate `trip_id`/`seat_code`, fetch
the session hold token, invoke the core hold transition, map the result to
200/409.  The third component records whether the core service was
invoked. -/
def hold_seat_view (body : HoldBody) (session : Option String)
    (freshBytes : List Nat) (now ttl : Nat) (seats : List Seat) :
    HttpResponse × List Seat × Bool :=
  let trip_id := to_int body.trip_id
  let seat_code := pyUpper (pyStrip (py_or_str body.seat_code))
  if trip_id == 0 || seat_code == "" then
    (errResp "trip_id dan seat_code wajib diisi." 400, seats, false)
  else
    let tok := (get_or_create_hold_token session freshBytes).1
    let res := hold_seat_svc now ttl trip_id seat_code tok seats
    if res.1.ok then (okResp res.1.message, res.2, true)
    else (errResp res.1.message 409, res.2, true)

/-- The parsed JSON body of the admin endpoints: `trip_id` (any JSON value)
and `seat_codes` (`none` unless a list of strings was given). -/
structure AdminGenBody where
  trip_id : Option JVal
  seat_codes : Option (List String)
deriving DecidableEq, Repr

/-- The view `admin_generate_booking_code` (views.py:213-244): reject without the
admin credential, validate the body, clean the seat codes
(`str(c).strip().upper()` dropping blanks), invoke the finalizer, map the
result to 200/409.  The third component records whether the core service
was invoked. -/
def admin_generate_booking_code_view (admin_api_key : Option String)
    (req : AdminRequest) (body : AdminGenBody) (now : Nat) (codeBytes : List Nat)
    (seats : List Seat) : HttpResponse × List Seat × Bool :=
  if !is_admin_request admin_api_key req then
    (errResp "Forbidden" 403, seats, false)
  else
    let trip_id := to_int body.trip_id
    match body.seat_codes with
    | none => (errResp "trip_id dan seat_codes(list) wajib diisi." 400, seats, false)
    | some cs =>
      if trip_id == 0 || cs.isEmpty then
        (errResp "trip_id dan seat_codes(list) wajib diisi." 400, seats, false)
      else
        let clean := (cs.filter (fun c => !(pyStrip c == ""))).map
          (fun c => pyUpper (pyStrip c))
        if clean.isEmpty then
          (errResp "seat_codes tidak boleh kosong." 400, seats, false)
        else
          let res := admin_generate_booking_code_and_book now trip_id codeBytes
            clean seats
          if res.1.ok then (okResp res.1.message, res.2, true)
          else (errResp res.1.message 409, res.2, true)

/-- The view `trips_list` (views.py:82-101): `services.expire_holds()` first, then
`services.list_trips()`; returns the response, the seat table after the
call, and the trips presented. -/
def trips_list_view (now : Nat) (trips : List Trip) (seats : List Seat) :
    HttpResponse × List Seat × List Trip :=
  let swept := (expire_holds now seats).2
  let ts := list_trips trips
  (okResp "OK", swept, ts)

/-- The view `seat_map` (views.py:105-110): `services.get_seat_map(trip_id)`, a
failure mapping to 404. -/
def seat_map_view (now : Nat) (trip_id : Int) (trips : List Trip)
    (seats : List Seat) : HttpResponse × List Seat × List (String × Status) :=
  let res := get_seat_map now trip_id trips seats
  if res.1.ok then (okResp res.1.message, res.2, res.1.seat_data)
  else (errResp res.1.message 404, res.2, res.1.seat_data)

/-- The view `expire_now` (views.py:278-281): the on-demand sweep; returns the count
of released holds. -/
def expire_now_view (now : Nat) (seats : List Seat) :
    HttpResponse × List Seat × Nat :=
  let r := expire_holds now seats
  (okResp "Expired holds released", r.2, r.1)

/-! ## Theorems -/

theorem upHexDigit_isUpHex (n : Nat) (h : n < 16) :
    isUpHexChar (upHexDigit n) = true := by
  interval_cases n <;> decide

theorem generate_claim_code_data (b0 b1 b2 b3 : Nat) :
    (generate_claim_code [b0, b1, b2, b3]).data =
      byteHexUpper b0 ++ byteHexUpper b1 ++ ['-'] ++ byteHexUpper b2 ++ byteHexUpper b3 := by
  simp [generate_claim_code, token_hex_upper, byteHexUpper, String.take_eq, String.drop_eq,
    String.data_append]

theorem generate_booking_code_data (b0 b1 b2 : Nat) :
    (generate_booking_code [b0, b1, b2]).data =
      'B' :: 'K' :: '-' :: (byteHexUpper b0 ++ byteHexUpper b1 ++ byteHexUpper b2) := by
  simp [generate_booking_code, token_hex_upper, byteHexUpper, String.data_append]

/-- C5: every claim code built by `Seat.generate_claim_code` from the four
CSPRNG bytes has the shape four uppercase hex characters, a hyphen, and four
more uppercase hex characters — nine characters total. -/
theorem claim_code_format_correct (bytes : List Nat) (h : bytes.length = 4) :
    claimCodeFormat (generate_claim_code bytes) = true := by
  match bytes, h with
  | [b0, b1, b2, b3], _ =>
    have h0 := upHexDigit_isUpHex (b0 / 16 % 16) (Nat.mod_lt _ (by norm_num))
    have h1 := upHexDigit_isUpHex (b0 % 16) (Nat.mod_lt _ (by norm_num))
    have h2 := upHexDigit_isUpHex (b1 / 16 % 16) (Nat.mod_lt _ (by norm_num))
    have h3 := upHexDigit_isUpHex (b1 % 16) (Nat.mod_lt _ (by norm_num))
    have h4 := upHexDigit_isUpHex (b2 / 16 % 16) (Nat.mod_lt _ (by norm_num))
    have h5 := upHexDigit_isUpHex (b2 % 16) (Nat.mod_lt _ (by norm_num))
    have h6 := upHexDigit_isUpHex (b3 / 16 % 16) (Nat.mod_lt _ (by norm_num))
    have h7 := upHexDigit_isUpHex (b3 % 16) (Nat.mod_lt _ (by norm_num))
    have hd := generate_claim_code_data b0 b1 b2 b3
    simp [claimCodeFormat, String.toList, String.length, hd, byteHexUpper, h0, h1, h2, h3, h4,
      h5, h6, h7]

/-- Witness for `claim_code_format_correct` at the concrete draw
`9A 2F 3C FF`. -/
theorem claim_code_format_correct_witness :
    claimCodeFormat (generate_claim_code [154, 47, 60, 255]) = true :=
  claim_code_format_correct [154, 47, 60, 255] rfl

/-- C6: every booking code built by `Seat.generate_booking_code` from the
three CSPRNG bytes is `"BK-"` followed by six uppercase hex characters. -/
theorem booking_code_format_correct (bytes : List Nat) (h : bytes.length = 3) :
    bookingCodeFormat (generate_booking_code bytes) = true := by
  match bytes, h with
  | [b0, b1, b2], _ =>
    have h0 := upHexDigit_isUpHex (b0 / 16 % 16) (Nat.mod_lt _ (by norm_num))
    have h1 := upHexDigit_isUpHex (b0 % 16) (Nat.mod_lt _ (by norm_num))
    have h2 := upHexDigit_isUpHex (b1 / 16 % 16) (Nat.mod_lt _ (by norm_num))
    have h3 := upHexDigit_isUpHex (b1 % 16) (Nat.mod_lt _ (by norm_num))
    have h4 := upHexDigit_isUpHex (b2 / 16 % 16) (Nat.mod_lt _ (by norm_num))
    have h5 := upHexDigit_isUpHex (b2 % 16) (Nat.mod_lt _ (by norm_num))
    have hd := generate_booking_code_data b0 b1 b2
    simp [bookingCodeFormat, String.toList, String.length, hd, byteHexUpper, h0, h1, h2, h3,
      h4, h5]

/-- Witness for `booking_code_format_correct` at the concrete draw
`9A 2F 3C` (the spec's example `BK-9A2F3C`). -/
theorem booking_code_format_correct_witness :
    bookingCodeFormat (generate_booking_code [154, 47, 60]) = true :=
  booking_code_format_correct [154, 47, 60] rfl

theorem lowHexDigit_isLowHex (n : Nat) (h : n < 16) :
    isLowHexChar (lowHexDigit n) = true := by
  interval_cases n <;> decide

theorem flatMap_byteHexLower_length (bytes : List Nat) :
    (bytes.flatMap byteHexLower).length = 2 * bytes.length := by
  induction bytes with
  | nil => rfl
  | cons b bs ih =>
    simp only [List.flatMap_cons, List.length_append, List.length_cons, ih, byteHexLower]
    simp; omega

theorem flatMap_byteHexLower_all (bytes : List Nat) :
    (bytes.flatMap byteHexLower).all isLowHexChar = true := by
  induction bytes with
  | nil => rfl
  | cons b bs ih =>
    have h0 := lowHexDigit_isLowHex (b / 16 % 16) (Nat.mod_lt _ (by norm_num))
    have h1 := lowHexDigit_isLowHex (b % 16) (Nat.mod_lt _ (by norm_num))
    simp [byteHexLower, h0, h1, ih]

theorem token_hex_format (bytes : List Nat) (h : bytes.length = 16) :
    hexTokenFormat (token_hex bytes) = true := by
  have hl := flatMap_byteHexLower_length bytes
  have ha := flatMap_byteHexLower_all bytes
  simp [hexTokenFormat, token_hex, String.length, String.toList, hl, h, ha]

theorem token_hex_ne_empty (bytes : List Nat) (h : bytes.length = 16) :
    token_hex bytes ≠ "" := by
  intro hc
  have hl := flatMap_byteHexLower_length bytes
  rw [h] at hl
  have hlen : (token_hex bytes).data.length = 32 := by simpa [token_hex] using hl
  rw [hc] at hlen
  simp at hlen

/-- C9: when `settings.ADMIN_API_KEY` is unset or empty and the request has
no authenticated staff user, `_is_admin_request` returns `False` whatever
`X-ADMIN-KEY` header is presented — an empty header never matches an empty
configured key. -/
theorem empty_admin_key_rejects_all (key : Option String) (req : AdminRequest)
    (hstaff : req.user_is_authenticated_staff = false)
    (hkey : key = none ∨ key = some "") :
    is_admin_request key req = false := by
  rcases hkey with h | h <;> simp [is_admin_request, h, hstaff]

/-- Witness for `empty_admin_key_rejects_all`: empty configured key, request
presenting an empty `X-ADMIN-KEY` header. -/
theorem empty_admin_key_rejects_all_witness :
    is_admin_request (some "") ⟨false, some ""⟩ = false :=
  empty_admin_key_rejects_all (some "") ⟨false, some ""⟩ rfl (Or.inr rfl)

/-- C10: obtaining the hold token is idempotent per session — a stored
token is returned with the session unchanged; with no stored token a fresh
32-character lowercase-hex token is generated and stored, and a subsequent
call on the resulting session returns that same token without modifying the
session again. -/
theorem hold_token_idempotent (t : String) (fb fb2 : List Nat)
    (ht : t ≠ "") (hlen : fb.length = 16) :
    get_or_create_hold_token (some t) fb = (t, some t) ∧
    hexTokenFormat (get_or_create_hold_token none fb).1 = true ∧
    (get_or_create_hold_token none fb).2 = some (get_or_create_hold_token none fb).1 ∧
    get_or_create_hold_token (get_or_create_hold_token none fb).2 fb2 =
      ((get_or_create_hold_token none fb).1, (get_or_create_hold_token none fb).2) := by
  have hfmt := token_hex_format fb hlen
  have hne := token_hex_ne_empty fb hlen
  refine ⟨?_, ?_, ?_, ?_⟩
  · simp [get_or_create_hold_token, py_truthy_str, ht]
  · simpa [get_or_create_hold_token, py_truthy_str] using hfmt
  · simp [get_or_create_hold_token, py_truthy_str]
  · simp [get_or_create_hold_token, py_truthy_str, hne]

/-- Witness for `hold_token_idempotent` at a stored token `"abc"` and a
concrete 16-byte draw. -/
theorem hold_token_idempotent_witness :
    get_or_create_hold_token (some "abc")
        [0, 1, 2, 3, 4, 5, 6, 7, 8, 9, 10, 11, 12, 13, 14, 15] =
      ("abc", some "abc") ∧
    hexTokenFormat (get_or_create_hold_token none
        [0, 1, 2, 3, 4, 5, 6, 7, 8, 9, 10, 11, 12, 13, 14, 15]).1 = true ∧
    (get_or_create_hold_token none
        [0, 1, 2, 3, 4, 5, 6, 7, 8, 9, 10, 11, 12, 13, 14, 15]).2 =
      some (get_or_create_hold_token none
        [0, 1, 2, 3, 4, 5, 6, 7, 8, 9, 10, 11, 12, 13, 14, 15]).1 ∧
    get_or_create_hold_token (get_or_create_hold_token none
        [0, 1, 2, 3, 4, 5, 6, 7, 8, 9, 10, 11, 12, 13, 14, 15]).2 [255] =
      ((get_or_create_hold_token none
        [0, 1, 2, 3, 4, 5, 6, 7, 8, 9, 10, 11, 12, 13, 14, 15]).1,
       (get_or_create_hold_token none
        [0, 1, 2, 3, 4, 5, 6, 7, 8, 9, 10, 11, 12, 13, 14, 15]).2) :=
  hold_token_idempotent "abc" [0, 1, 2, 3, 4, 5, 6, 7, 8, 9, 10, 11, 12, 13, 14, 15] [255]
    (by decide) rfl

theorem pairwise_key_filter_le_one (t : Int) (c : String) :
    ∀ rows : List Seat, uniqueTogetherSatisfied rows →
      (rows.filter (fun s => s.trip_id == t && s.code == c)).length ≤ 1 := by
  intro rows
  induction rows with
  | nil => intro _; simp
  | cons a rs ih =>
    intro h
    rw [uniqueTogetherSatisfied, List.pairwise_cons] at h
    obtain ⟨ha, hrs⟩ := h
    by_cases hm : (a.trip_id == t && a.code == c) = true
    · have hnil : rs.filter (fun s => s.trip_id == t && s.code == c) = [] := by
        rw [List.filter_eq_nil_iff]
        intro b hb hbm
        have h1 : a.trip_id = t ∧ a.code = c := by simpa using hm
        have h2 : b.trip_id = t ∧ b.code = c := by simpa using hbm
        exact ha b hb ⟨h1.1.trans h2.1.symm, h1.2.trans h2.2.symm⟩
      simp [List.filter_cons, hm, hnil]
    · have hle := ih hrs
      simpa [List.filter_cons, hm] using hle

/-- C7: `Seat.Meta` declares the `("trip", "code")` uniqueness constraint,
and any seat table honouring that declared constraint has at most one row
per `(trip, code)` pair — the guarantee comes from the data model's
constraint, with no application logic involved. -/
theorem seat_identity_unique (rows : List Seat) (h : uniqueTogetherSatisfied rows) :
    seatMeta.unique_together = ["trip", "code"] ∧ atMostOnePerPair rows :=
  ⟨rfl, fun t c => pairwise_key_filter_le_one t c rows h⟩

/-- Witness for `seat_identity_unique` on a concrete two-row table. -/
theorem seat_identity_unique_witness :
    seatMeta.unique_together = ["trip", "code"] ∧
    atMostOnePerPair
      [⟨1, "A1", Status.AVAILABLE, none, none, none, none, none, none, none⟩,
       ⟨1, "A2", Status.AVAILABLE, none, none, none, none, none, none, none⟩] :=
  seat_identity_unique
    [⟨1, "A1", Status.AVAILABLE, none, none, none, none, none, none, none⟩,
     ⟨1, "A2", Status.AVAILABLE, none, none, none, none, none, none, none⟩]
    (by simp [uniqueTogetherSatisfied])

theorem find?_map_ite {α : Type} (p : α → Bool) (f : α → α)
    (hp : ∀ a, p a = true → p (f a) = true) :
    ∀ (l : List α) (s : α), l.find? p = some s →
      (l.map fun r => if p r then f r else r).find? p = some (f s) := by
  intro l
  induction l with
  | nil => intro s h; simp at h
  | cons a rs ih =>
    intro s h
    by_cases hpa : p a = true
    · rw [List.find?_cons_of_pos _ hpa] at h
      injection h with h
      subst h
      simp only [List.map_cons, if_pos hpa]
      exact List.find?_cons_of_pos _ (hp _ hpa)
    · have hpa' : ¬ p a = true := hpa
      rw [List.find?_cons_of_neg _ hpa'] at h
      simp only [List.map_cons, if_neg hpa']
      rw [List.find?_cons_of_neg _ hpa']
      exact ih s h

theorem applyHold_key (now ttl : Nat) (trip_id : Int) (seat_code tok : String) :
    ∀ r : Seat, (r.trip_id == trip_id && r.code == seat_code) = true →
      ((applyHold now ttl tok r).trip_id == trip_id &&
        (applyHold now ttl tok r).code == seat_code) = true := by
  intro r h
  simpa [applyHold] using h

/-- C1: for a seat starting `AVAILABLE`, two racing `acquire` calls with
distinct hold tokens — serialized by the per-row atomic check-and-set, so
modelled as the two sequential orders — yield exactly one success: the
first call succeeds and the second reports a conflict, whichever tokens are
first and second. -/
theorem acquire_mutual_exclusion (now ttl : Nat) (trip_id : Int)
    (codeS tokA tokB : String) (seats : List Seat) (s : Seat)
    (hfind : seats.find? (fun r => r.trip_id == trip_id && r.code == codeS) = some s)
    (havail : s.status = Status.AVAILABLE) (hne : tokA ≠ tokB) :
    (hold_seat_svc now ttl trip_id codeS tokA seats).1.ok = true ∧
    (hold_seat_svc now ttl trip_id codeS tokB
        (hold_seat_svc now ttl trip_id codeS tokA seats).2).1.ok = false := by
  have hfind2 := find?_map_ite _ _ (applyHold_key now ttl trip_id codeS tokA) seats s hfind
  have h2 : (hold_seat_svc now ttl trip_id codeS tokA seats).2 =
      seats.map fun r =>
        if r.trip_id == trip_id && r.code == codeS then applyHold now ttl tokA r else r := by
    simp [hold_seat_svc, hfind, havail]
  constructor
  · simp [hold_seat_svc, hfind, havail]
  · rw [h2]
    have hnl : ¬ (now + ttl < now) := by omega
    simp only [hold_seat_svc]
    rw [hfind2]
    simp [applyHold, hne, hnl]

/-- Witness for `acquire_mutual_exclusion`: one `AVAILABLE` seat `A1`,
tokens `"tok1"` and `"tok2"` racing at instant 0 with a 900-second TTL. -/
theorem acquire_mutual_exclusion_witness :
    (hold_seat_svc 0 900 1 "A1" "tok1"
        [⟨1, "A1", Status.AVAILABLE, none, none, none, none, none, none, none⟩]).1.ok
      = true ∧
    (hold_seat_svc 0 900 1 "A1" "tok2"
        (hold_seat_svc 0 900 1 "A1" "tok1"
          [⟨1, "A1", Status.AVAILABLE, none, none, none, none, none, none,
            none⟩]).2).1.ok = false :=
  acquire_mutual_exclusion 0 900 1 "A1" "tok1" "tok2"
    [⟨1, "A1", Status.AVAILABLE, none, none, none, none, none, none, none⟩]
    ⟨1, "A1", Status.AVAILABLE, none, none, none, none, none, none, none⟩
    (by decide) rfl (by decide)

/-- C2: `generateBookingCodeAndBook` is all-or-nothing.  For a seat list
`[c1, c2]` where `c1` is currently held (unexpired `HOLD`) and `c2` is not
held, the call fails, no seat in the table is modified — in particular `c1`
is still the same `HOLD` row, not `BOOKED` — and the conflict names `c2`
as the seat that failed and why. -/
theorem finalize_all_or_nothing (now : Nat) (trip_id : Int) (codeBytes : List Nat)
    (c1 c2 : String) (seats : List Seat) (s1 s2 : Seat)
    (h1 : seats.find? (fun r => r.trip_id == trip_id && r.code == c1) = some s1)
    (hs1 : s1.status = Status.HOLD) (hlive : ¬ s1.hold_until.getD 0 < now)
    (h2 : seats.find? (fun r => r.trip_id == trip_id && r.code == c2) = some s2)
    (hs2 : s2.status ≠ Status.HOLD) :
    (admin_generate_booking_code_and_book now trip_id codeBytes [c1, c2] seats).1.ok
      = false ∧
    (admin_generate_booking_code_and_book now trip_id codeBytes [c1, c2] seats).2
      = seats ∧
    (admin_generate_booking_code_and_book now trip_id codeBytes [c1, c2] seats).1.failed
      = [(c2, "not held")] := by
  have f1 : finalizeFailure now trip_id seats c1 = none := by
    simp [finalizeFailure, h1, hs1, hlive]
  have f2 : finalizeFailure now trip_id seats c2 = some (c2, "not held") := by
    cases hst : s2.status with
    | AVAILABLE => simp [finalizeFailure, h2, hst]
    | HOLD => exact absurd hst hs2
    | BOOKED => simp [finalizeFailure, h2, hst]
  refine ⟨?_, ?_, ?_⟩ <;>
    simp [admin_generate_booking_code_and_book, f1, f2]

/-- Witness for `finalize_all_or_nothing`: `A1` held by `tok1` until
instant 100, `A2` available, finalization of `[A1, A2]` attempted at
instant 50. -/
theorem finalize_all_or_nothing_witness :
    (admin_generate_booking_code_and_book 50 1 [154, 47, 60] ["A1", "A2"]
        [⟨1, "A1", Status.HOLD, some "tok1", some 100, none, none, none, none, none⟩,
         ⟨1, "A2", Status.AVAILABLE, none, none, none, none, none, none, none⟩]).1.ok
      = false ∧
    (admin_generate_booking_code_and_book 50 1 [154, 47, 60] ["A1", "A2"]
        [⟨1, "A1", Status.HOLD, some "tok1", some 100, none, none, none, none, none⟩,
         ⟨1, "A2", Status.AVAILABLE, none, none, none, none, none, none, none⟩]).2
      = [⟨1, "A1", Status.HOLD, some "tok1", some 100, none, none, none, none, none⟩,
         ⟨1, "A2", Status.AVAILABLE, none, none, none, none, none, none, none⟩] ∧
    (admin_generate_booking_code_and_book 50 1 [154, 47, 60] ["A1", "A2"]
        [⟨1, "A1", Status.HOLD, some "tok1", some 100, none, none, none, none, none⟩,
         ⟨1, "A2", Status.AVAILABLE, none, none, none, none, none, none, none⟩]).1.failed
      = [("A2", "not held")] :=
  finalize_all_or_nothing 50 1 [154, 47, 60] "A1" "A2"
    [⟨1, "A1", Status.HOLD, some "tok1", some 100, none, none, none, none, none⟩,
     ⟨1, "A2", Status.AVAILABLE, none, none, none, none, none, none, none⟩]
    ⟨1, "A1", Status.HOLD, some "tok1", some 100, none, none, none, none, none⟩
    ⟨1, "A2", Status.AVAILABLE, none, none, none, none, none, none, none⟩
    (by decide) rfl (by decide) (by decide) (by decide)

/-- C3: an admin finalize request with no authenticated staff session and
an `X-ADMIN-KEY` header that does not match the configured key gets the
403 failure response, the finalizer service is never invoked, and the seat
table is unchanged. -/
theorem admin_unauthorized_rejected (admin_api_key : Option String)
    (req : AdminRequest) (body : AdminGenBody) (now : Nat) (codeBytes : List Nat)
    (seats : List Seat)
    (hstaff : req.user_is_authenticated_staff = false)
    (hmatch : pyStrip (req.admin_key_header.getD "") ≠ admin_api_key.getD "") :
    admin_generate_booking_code_view admin_api_key req body now codeBytes seats =
      (errResp "Forbidden" 403, seats, false) := by
  have hadm : is_admin_request admin_api_key req = false := by
    rw [is_admin_request]
    by_cases hexp : admin_api_key.getD "" = ""
    · simp [hstaff, hexp]
    · simp [hstaff, hexp, hmatch]
  simp [admin_generate_booking_code_view, hadm]

/-- Witness for `admin_unauthorized_rejected`: configured key `"secret"`,
anonymous request presenting header `"wrong"`. -/
theorem admin_unauthorized_rejected_witness :
    admin_generate_booking_code_view (some "secret") ⟨false, some "wrong"⟩
        ⟨some (JVal.jnum 1), some ["A1"]⟩ 0 [154, 47, 60]
        [⟨1, "A1", Status.HOLD, some "tok1", some 100, none, none, none, none, none⟩] =
      (errResp "Forbidden" 403,
       [⟨1, "A1", Status.HOLD, some "tok1", some 100, none, none, none, none, none⟩],
       false) :=
  admin_unauthorized_rejected (some "secret") ⟨false, some "wrong"⟩
    ⟨some (JVal.jnum 1), some ["A1"]⟩ 0 [154, 47, 60]
    [⟨1, "A1", Status.HOLD, some "tok1", some 100, none, none, none, none, none⟩]
    rfl (by decide)

/-- C8: a hold request whose `trip_id` is missing or does not evaluate to a
nonzero integer, or whose `seat_code` is missing or blank, gets the 400
validation failure, the core hold transition is never invoked, and the seat
table is unchanged. -/
theorem hold_validation_rejects (body : HoldBody) (session : Option String)
    (freshBytes : List Nat) (now ttl : Nat) (seats : List Seat)
    (h : body.trip_id = none ∨ to_int body.trip_id = 0 ∨
         body.seat_code = none ∨ pyStrip (py_or_str body.seat_code) = "") :
    hold_seat_view body session freshBytes now ttl seats =
      (errResp "trip_id dan seat_code wajib diisi." 400, seats, false) := by
  have hcond :
      (to_int body.trip_id == 0 ||
        pyUpper (pyStrip (py_or_str body.seat_code)) == "") = true := by
    rcases h with h | h | h | h
    · simp [h, to_int]
    · simp [h]
    · have he : (pyUpper (pyStrip (py_or_str none)) == "") = true := by decide
      rw [h, he]
      simp
    · have he : (pyUpper "" == "") = true := by decide
      rw [h, he]
      simp
  rw [hold_seat_view, hcond]
  simp

/-- Witness for `hold_validation_rejects`: a body whose `trip_id` is the
string `"abc"` and whose `seat_code` is blank. -/
theorem hold_validation_rejects_witness :
    hold_seat_view ⟨some (JVal.jstr "abc"), some "  "⟩ none
        [0, 1, 2, 3, 4, 5, 6, 7, 8, 9, 10, 11, 12, 13, 14, 15] 0 900
        [⟨1, "A1", Status.AVAILABLE, none, none, none, none, none, none, none⟩] =
      (errResp "trip_id dan seat_code wajib diisi." 400,
       [⟨1, "A1", Status.AVAILABLE, none, none, none, none, none, none, none⟩],
       false) :=
  hold_validation_rejects ⟨some (JVal.jstr "abc"), some "  "⟩ none
    [0, 1, 2, 3, 4, 5, 6, 7, 8, 9, 10, 11, 12, 13, 14, 15] 0 900
    [⟨1, "A1", Status.AVAILABLE, none, none, none, none, none, none, none⟩]
    (Or.inr (Or.inl (by decide)))

theorem expire_holds_clears (now : Nat) (seats : List Seat) :
    ∀ s ∈ (expire_holds now seats).2, holdExpired now s = false := by
  intro s hs
  rw [expire_holds] at hs
  simp only [List.mem_map] at hs
  obtain ⟨t, ht, rfl⟩ := hs
  by_cases hexp : holdExpired now t = true
  · have hexp' : t.status = Status.HOLD ∧ t.hold_until.getD 0 < now := by
      simpa [holdExpired] using hexp
    simp [holdExpired, hexp']
  · simp only [Bool.not_eq_true] at hexp
    simp [hexp]

/-- C4: the expiry sweep runs before every read that presents seat
availability: the trip list and the seat map both leave the seat table in
exactly the swept state — in particular no expired hold survives into the
state either read presents — the seat map's presented seats are read from
the swept state, and the sweep is also exposed on demand by the explicit
expire endpoint, which reports the released count. -/
theorem sweep_before_availability_reads (now : Nat) (trip_id : Int)
    (trips : List Trip) (seats : List Seat) :
    (trips_list_view now trips seats).2.1 = (expire_holds now seats).2 ∧
    (seat_map_view now trip_id trips seats).2.1 = (expire_holds now seats).2 ∧
    (∀ s ∈ (trips_list_view now trips seats).2.1, holdExpired now s = false) ∧
    (∀ s ∈ (seat_map_view now trip_id trips seats).2.1, holdExpired now s = false) ∧
    (seat_map_view now trip_id trips seats).2.2 =
      (get_seat_map now trip_id trips seats).1.seat_data ∧
    (expire_now_view now seats).2.1 = (expire_holds now seats).2 ∧
    (expire_now_view now seats).2.2 = (expire_holds now seats).1 := by
  have hsm : (seat_map_view now trip_id trips seats).2.1 = (expire_holds now seats).2 := by
    rw [seat_map_view, get_seat_map]
    cases htr : trips.find? (fun t => t.id == trip_id) <;> simp [htr]
  refine ⟨rfl, hsm, ?_, ?_, ?_, rfl, rfl⟩
  · intro s hs
    exact expire_holds_clears now seats s hs
  · intro s hs
    rw [hsm] at hs
    exact expire_holds_clears now seats s hs
  · rw [seat_map_view]
    cases hok : (get_seat_map now trip_id trips seats).1.ok <;> simp [hok]

/-- Witness for `sweep_before_availability_reads` on a one-trip, one-seat
table whose hold expired at instant 10, read at instant 50. -/
theorem sweep_before_availability_reads_witness :
    (trips_list_view 50 [⟨1, "T", "EKONOMI", "A", "B", 0, 10, 1, true⟩]
        [⟨1, "A1", Status.HOLD, some "tok1", some 10, none, none, none, none, none⟩]).2.1
      = (expire_holds 50
        [⟨1, "A1", Status.HOLD, some "tok1", some 10, none, none, none, none, none⟩]).2 ∧
    (seat_map_view 50 1 [⟨1, "T", "EKONOMI", "A", "B", 0, 10, 1, true⟩]
        [⟨1, "A1", Status.HOLD, some "tok1", some 10, none, none, none, none, none⟩]).2.1
      = (expire_holds 50
        [⟨1, "A1", Status.HOLD, some "tok1", some 10, none, none, none, none, none⟩]).2 ∧
    (∀ s ∈ (trips_list_view 50 [⟨1, "T", "EKONOMI", "A", "B", 0, 10, 1, true⟩]
        [⟨1, "A1", Status.HOLD, some "tok1", some 10, none, none, none, none,
          none⟩]).2.1, holdExpired 50 s = false) ∧
    (∀ s ∈ (seat_map_view 50 1 [⟨1, "T", "EKONOMI", "A", "B", 0, 10, 1, true⟩]
        [⟨1, "A1", Status.HOLD, some "tok1", some 10, none, none, none, none,
          none⟩]).2.1, holdExpired 50 s = false) ∧
    (seat_map_view 50 1 [⟨1, "T", "EKONOMI", "A", "B", 0, 10, 1, true⟩]
        [⟨1, "A1", Status.HOLD, some "tok1", some 10, none, none, none, none, none⟩]).2.2
      = (get_seat_map 50 1 [⟨1, "T", "EKONOMI", "A", "B", 0, 10, 1, true⟩]
        [⟨1, "A1", Status.HOLD, some "tok1", some 10, none, none, none, none,
          none⟩]).1.seat_data ∧
    (expire_now_view 50
        [⟨1, "A1", Status.HOLD, some "tok1", some 10, none, none, none, none, none⟩]).2.1
      = (expire_holds 50
        [⟨1, "A1", Status.HOLD, some "tok1", some 10, none, none, none, none, none⟩]).2 ∧
    (expire_now_view 50
        [⟨1, "A1", Status.HOLD, some "tok1", some 10, none, none, none, none, none⟩]).2.2
      = (expire_holds 50
        [⟨1, "A1", Status.HOLD, some "tok1", some 10, none, none, none, none, none⟩]).1 :=
  sweep_before_availability_reads 50 1 [⟨1, "T", "EKONOMI", "A", "B", 0, 10, 1, true⟩]
    [⟨1, "A1", Status.HOLD, some "tok1", some 10, none, none, none, none, none⟩]

end Bus
